import Mathlib

/-
Verification of the EDUARDO-V2 scheduling and run-orchestration engine.

Shallow embedding of the Python sources:
  models.py        -> the dataclasses (timestamp default-factory fields are
                      omitted: no property here observes them; float fields
                      are modelled as Rat)
  alpaca_client.py -> execute_trades (order submission via the Alpaca client
                      is modelled as an oracle function submit_order passed
                      in; the per-decision loop and its per-action exception
                      handling are translated literally)
  main.py          -> run_trading_pipeline (the external services are
                      modelled as an environment record of possibly-failing
                      stage results; Python exceptions become Except.error,
                      and the function additionally records which stages
                      were invoked, read directly off the source control
                      flow of early returns)
  scheduler.py     -> EduardoScheduler.run_task / _schedule_retry /
                      _retry_once / run_now over an explicit SchedulerState
                      (retry_scheduled flag plus the number of retry jobs
                      pending in the schedule registry), and
                      calculate_next_monday_830_cdt over a wall-clock
                      datetime model.
-/

namespace Eduardo

/-- Dataclass CompanyPick from models.py. -/
structure CompanyPick where
  company : String
  ticker : String
  rationale : String
  news_summary : String
  deriving DecidableEq, Repr

/-- Dataclass GPTResponse from models.py (timestamp omitted). -/
structure GPTResponse where
  picks : List CompanyPick
  deriving DecidableEq, Repr

/-- Dataclass FundamentalData from models.py; the additional_metrics dict is
modelled as an association list (timestamp-free; floats as Rat). -/
structure FundamentalData where
  company : String
  ticker : String
  pe_ratio : Option Rat
  cash_flow : Option Rat
  revenue : Option Rat
  market_cap : Option Rat
  debt_to_equity : Option Rat
  earnings_growth : Option Rat
  dividend_yield : Option Rat
  additional_metrics : List (String × Rat)
  analysis_notes : String
  deriving DecidableEq, Repr

/-- Dataclass ClaudeResponse from models.py (timestamp omitted). -/
structure ClaudeResponse where
  fundamentals : List FundamentalData
  deriving DecidableEq, Repr

/-- Dataclass InvestmentDecision from models.py: the action string is one of
BUY, SELL, HOLD; shares is a Python int, hence Int. -/
structure InvestmentDecision where
  company : String
  ticker : String
  action : String
  shares : Int
  rationale : String
  confidence : Rat
  risk_assessment : String
  deriving DecidableEq, Repr

/-- Dataclass GrokResponse from models.py (timestamp omitted). -/
structure GrokResponse where
  decisions : List InvestmentDecision
  portfolio_risk_analysis : String
  available_capital : Rat
  deriving DecidableEq, Repr

/-- Dataclass TradeResult from models.py (timestamp omitted). -/
structure TradeResult where
  ticker : String
  shares : Int
  action : String
  price : Rat
  total_value : Rat
  success : Bool
  order_id : Option String
  error_message : Option String
  deriving DecidableEq, Repr

/-- The part of an Alpaca order object read by execute_trades: the optional
filled average price and the order id. -/
structure AlpacaOrder where
  filled_avg_price : Option Rat
  id : String
  deriving DecidableEq, Repr

/-- One position entry of the positions dict built by get_account_info in
alpaca_client.py. -/
structure PositionInfo where
  qty : Rat
  market_value : Rat
  avg_entry_price : Rat
  current_price : Rat
  unrealized_pl : Rat
  unrealized_plpc : Rat
  deriving DecidableEq, Repr

/-- The dict returned by get_account_info in alpaca_client.py, with the
positions dict as an association list keyed by symbol. -/
structure AccountInfo where
  cash : Rat
  portfolio_value : Rat
  buying_power : Rat
  positions : List (String × PositionInfo)
  deriving DecidableEq, Repr

/-- Result of one pass of the execute_trades loop in alpaca_client.py:
the TradeResult list it returns, plus (as instrumentation of the same loop)
the list of decisions for which client.submit_order was actually called. -/
structure ExecTrace where
  results : List TradeResult
  submitted : List InvestmentDecision
  deriving DecidableEq, Repr

/-- Body of the execute_trades loop for one decision that passed the skip
check, from alpaca_client.py lines 77-111: submit a market order; on success
record a successful TradeResult priced at the filled average price (0.0 when
the order reports none); on a raised error record a failed TradeResult with
the error text and continue. -/
def tradeOf (submit_order : InvestmentDecision → Except String AlpacaOrder)
    (decision : InvestmentDecision) : TradeResult :=
  match submit_order decision with
  | Except.ok order =>
    let filled_price := order.filled_avg_price.getD 0
    { ticker := decision.ticker
      shares := decision.shares
      action := "BUY"
      price := filled_price
      total_value := filled_price * (decision.shares : Rat)
      success := true
      order_id := some order.id
      error_message := none }
  | Except.error e =>
    { ticker := decision.ticker
      shares := decision.shares
      action := "BUY"
      price := 0
      total_value := 0
      success := false
      order_id := none
      error_message := some e }

/-- execute_trades from alpaca_client.py lines 61-113: iterate over the
decisions; skip any decision whose action is not BUY or whose shares are not
positive (no order is submitted for it and no TradeResult is recorded);
otherwise submit the order and record the per-decision outcome. -/
def execute_trades (submit_order : InvestmentDecision → Except String AlpacaOrder) :
    List InvestmentDecision → ExecTrace
  | [] => { results := [], submitted := [] }
  | decision :: rest =>
    if decision.action ≠ "BUY" ∨ decision.shares ≤ 0 then
      execute_trades submit_order rest
    else
      let tail := execute_trades submit_order rest
      { results := tradeOf submit_order decision :: tail.results
        submitted := decision :: tail.submitted }

/-- The skip check of the execute_trades loop, as the predicate selecting the
decisions that are actually executed. -/
def executes (decision : InvestmentDecision) : Bool :=
  decide (decision.action = "BUY" ∧ 0 < decision.shares)

/-- Closed form of execute_trades: it submits exactly the decisions passing
the skip check, in order, and returns one TradeResult per submitted decision. -/
theorem execute_trades_spec (submit_order : InvestmentDecision → Except String AlpacaOrder)
    (decisions : List InvestmentDecision) :
    execute_trades submit_order decisions =
      { results := (decisions.filter executes).map (tradeOf submit_order)
        submitted := decisions.filter executes } := by
  induction decisions with
  | nil => rfl
  | cons d rest ih =>
    by_cases h : d.action ≠ "BUY" ∨ d.shares ≤ 0
    · have hx : executes d = false := by
        simp only [executes, decide_eq_false_iff_not]
        rcases h with h | h
        · exact fun hc => h hc.1
        · exact fun hc => absurd hc.2 (not_lt.mpr h)
      simp [execute_trades, h, ih, List.filter_cons, hx]
    · have hx : executes d = true := by
        push_neg at h
        simp [executes, h.1, h.2]
      simp [execute_trades, h, ih, List.filter_cons, hx]

/-- The error raised by research_companies as caught in main.py: either an
openai RateLimitError (quota/rate-limit class, handled by a dedicated except
clause) or any other exception (caught by the outer handler). Both paths
return False from the pipeline. -/
inductive ResearchError where
  | rateLimit (msg : String)
  | other (msg : String)
  deriving DecidableEq, Repr

/-- The pipeline steps of main.py, in source order: the market-open check,
the account-info fetch, and the four stages research, analysis, decision,
execution. -/
inductive Stage where
  | marketCheck
  | account
  | research
  | analysis
  | decision
  | execution
  deriving DecidableEq, Repr

/-- Environment of run_trading_pipeline: the outcome each external call
would produce in this run. Python exceptions are Except.error; each field
stands for the named function imported in main.py. -/
structure PipelineEnv where
  check_market_open : Except String Bool
  get_account_info : Except String AccountInfo
  research_companies : Except ResearchError GPTResponse
  analyze_fundamentals : List CompanyPick → Except String ClaudeResponse
  make_investment_decision : List CompanyPick → List FundamentalData → Rat →
    List (String × PositionInfo) → Except String GrokResponse
  submit_order : InvestmentDecision → Except String AlpacaOrder

/-- Result of run_trading_pipeline: the returned bool, plus (instrumentation
of the source control flow) the steps that were invoked before returning and
the TradeResult list produced by the execution step (empty when execution
was never reached). -/
structure PipelineResult where
  success : Bool
  stagesRun : List Stage
  tradeResults : List TradeResult
  deriving DecidableEq, Repr

/-- run_trading_pipeline from main.py lines 37-128: check the market (closed
market returns False before any other step), fetch account info, run
research (any failure, rate-limit or otherwise, returns False without later
stages), analysis, decision, then execute trades and fold the per-trade
successes; all_successful starts true, is cleared by any failed TradeResult,
and is reset to true when there were no trades; any raised error at a step
returns False via the outer except handler. -/
def run_trading_pipeline (env : PipelineEnv) : PipelineResult :=
  match env.check_market_open with
  | Except.error _ => { success := false, stagesRun := [Stage.marketCheck], tradeResults := [] }
  | Except.ok false => { success := false, stagesRun := [Stage.marketCheck], tradeResults := [] }
  | Except.ok true =>
    match env.get_account_info with
    | Except.error _ =>
      { success := false, stagesRun := [Stage.marketCheck, Stage.account], tradeResults := [] }
    | Except.ok account_info =>
      match env.research_companies with
      | Except.error _ =>
        { success := false
          stagesRun := [Stage.marketCheck, Stage.account, Stage.research]
          tradeResults := [] }
      | Except.ok gpt_response =>
        match env.analyze_fundamentals gpt_response.picks with
        | Except.error _ =>
          { success := false
            stagesRun := [Stage.marketCheck, Stage.account, Stage.research, Stage.analysis]
            tradeResults := [] }
        | Except.ok claude_response =>
          match env.make_investment_decision gpt_response.picks claude_response.fundamentals
              account_info.cash account_info.positions with
          | Except.error _ =>
            { success := false
              stagesRun := [Stage.marketCheck, Stage.account, Stage.research, Stage.analysis,
                Stage.decision]
              tradeResults := [] }
          | Except.ok grok_response =>
            let trade_results := (execute_trades env.submit_order grok_response.decisions).results
            let all_checked := trade_results.all (fun r => r.success)
            let all_successful := if trade_results.isEmpty then true else all_checked
            { success := all_successful
              stagesRun := [Stage.marketCheck, Stage.account, Stage.research, Stage.analysis,
                Stage.decision, Stage.execution]
              tradeResults := trade_results }

/-- Outcome of one call of the scheduler's task function
(run_trading_pipeline): it returned a bool, or raised an exception. -/
inductive TaskOutcome where
  | ok (b : Bool)
  | exn (msg : String)
  deriving DecidableEq, Repr

/-- Whether a task outcome takes the failure branch of run_task in
scheduler.py: a returned False or a raised exception. -/
def taskFailed : TaskOutcome → Bool
  | TaskOutcome.ok b => !b
  | TaskOutcome.exn _ => true

/-- State of one EduardoScheduler plus the schedule-library registry:
the retry_scheduled flag set in __init__ (scheduler.py line 39), and the
number of one-shot retry jobs currently pending in the schedule registry. -/
structure SchedulerState where
  retry_scheduled : Bool
  pendingRetryJobs : Nat
  deriving DecidableEq, Repr

/-- EduardoScheduler._schedule_retry (scheduler.py lines 62-68): if the
retry_scheduled flag is clear, set it and register one daily-08:30 retry job
with the schedule library; otherwise do nothing. -/
def schedule_retry (s : SchedulerState) : SchedulerState :=
  if s.retry_scheduled then s
  else { retry_scheduled := true, pendingRetryJobs := s.pendingRetryJobs + 1 }

/-- EduardoScheduler.run_task (scheduler.py lines 41-60): run the task
function once; on a returned True clear the retry_scheduled flag; on a
returned False or a raised exception call _schedule_retry. The second
component counts how many times the task function was invoked. -/
def run_task (s : SchedulerState) (outcome : TaskOutcome) : SchedulerState × Nat :=
  match outcome with
  | TaskOutcome.ok true => ({ s with retry_scheduled := false }, 1)
  | TaskOutcome.ok false => (schedule_retry s, 1)
  | TaskOutcome.exn _ => (schedule_retry s, 1)

/-- EduardoScheduler._retry_once (scheduler.py lines 70-85): clear the
retry_scheduled flag, run the task function once, arm nothing regardless of
the outcome (success and failure both only log), and return
schedule.CancelJob so the schedule library removes this retry job. The
second component counts task-function invocations. -/
def retry_once (s : SchedulerState) (_outcome : TaskOutcome) : SchedulerState × Nat :=
  ({ retry_scheduled := false, pendingRetryJobs := s.pendingRetryJobs - 1 }, 1)

/-- EduardoScheduler.run_now (scheduler.py lines 104-107): run the task
immediately by calling run_task. -/
def run_now (s : SchedulerState) (outcome : TaskOutcome) : SchedulerState × Nat :=
  run_task s outcome

/-- One scheduling event of EduardoScheduler, with the outcome the task
function produces when invoked: the weekly Monday job firing (run_task), a
pending retry job firing (_retry_once), or a manual run_now call. -/
inductive SchedStep where
  | weekly (o : TaskOutcome)
  | retryFire (o : TaskOutcome)
  | manual (o : TaskOutcome)
  deriving DecidableEq, Repr

/-- Effect of one scheduling event on the scheduler state. -/
def schedStepFn (s : SchedulerState) : SchedStep → SchedulerState
  | SchedStep.weekly o => (run_task s o).1
  | SchedStep.retryFire o => (retry_once s o).1
  | SchedStep.manual o => (run_now s o).1

/-- The state EduardoScheduler.__init__ starts in: flag clear, no retry job
registered. -/
def initState : SchedulerState :=
  { retry_scheduled := false, pendingRetryJobs := 0 }

/-- Scheduler state after a sequence of scheduling events from the initial
state. -/
def runSched (steps : List SchedStep) : SchedulerState :=
  steps.foldl schedStepFn initState

/-- Wall-clock datetime in the America/Chicago zone as used by
calculate_next_monday_830_cdt: a day index (chosen so that day index mod 7
gives the Python weekday, 0 = Monday) and the time-of-day fields. Adding
days keeps the time fields; replace sets them. -/
structure PyDateTime where
  day : Nat
  hour : Nat
  minute : Nat
  second : Nat
  microsecond : Nat
  deriving DecidableEq, Repr

/-- Python datetime.weekday of the modelled wall-clock value: 0 is Monday. -/
def weekday (t : PyDateTime) : Nat :=
  t.day % 7

/-- Total key for comparing wall-clock values chronologically: the number of
microseconds represented by the fields. -/
def dtKey (t : PyDateTime) : Nat :=
  ((((t.day * 24 + t.hour) * 60 + t.minute) * 60 + t.second)) * 1000000 + t.microsecond

/-- Strictly-earlier order on the wall-clock model. -/
def dtLt (a b : PyDateTime) : Prop :=
  dtKey a < dtKey b

instance (a b : PyDateTime) : Decidable (dtLt a b) := by
  unfold dtLt
  infer_instance

/-- calculate_next_monday_830_cdt from scheduler.py lines 110-120: compute
days until Monday as (7 - weekday) mod 7, bump by a week when it is Monday
and the hour is at least 9, add that many days, and replace the time fields
with 08:30:00.000000. -/
def calculate_next_monday_830_cdt (now : PyDateTime) : PyDateTime :=
  let days_until_monday := (7 - weekday now) % 7
  let days_until_monday :=
    if days_until_monday = 0 ∧ 9 ≤ now.hour then 7 else days_until_monday
  { day := now.day + days_until_monday
    hour := 8
    minute := 30
    second := 0
    microsecond := 0 }

/-- The bool run_trading_pipeline returns in the completed case equals the
check that no TradeResult in the list failed. -/
theorem all_successful_eq_no_failures (rs : List TradeResult) :
    (if rs.isEmpty then true else rs.all fun r => r.success) =
      (rs.countP (fun r => !r.success) == 0) := by
  induction rs with
  | nil => rfl
  | cons r t ih =>
    cases hs : r.success
    · simp [List.countP_cons, hs, List.all_cons]
    · simp [List.countP_cons, hs, List.all_cons, ← ih]
      cases t <;> simp

/-- An account snapshot with no cash and no positions, used as a concrete
fixture. -/
def acct0 : AccountInfo :=
  { cash := 0, portfolio_value := 0, buying_power := 0, positions := [] }

/-- A concrete BUY decision fixture. -/
def buyDecision (tick : String) (n : Int) : InvestmentDecision :=
  { company := tick, ticker := tick, action := "BUY", shares := n, rationale := "momentum"
    confidence := 1, risk_assessment := "low" }

/-- A concrete HOLD decision fixture. -/
def holdDecision : InvestmentDecision :=
  { company := "HoldCo", ticker := "HLD", action := "HOLD", shares := 1, rationale := "wait"
    confidence := 1, risk_assessment := "low" }

/-- A concrete run environment in which the market-open check reports a
closed market. -/
def envClosed : PipelineEnv :=
  { check_market_open := Except.ok false
    get_account_info := Except.ok acct0
    research_companies := Except.error (ResearchError.other "unused")
    analyze_fundamentals := fun _ => Except.error "unused"
    make_investment_decision := fun _ _ _ _ => Except.error "unused"
    submit_order := fun _ => Except.error "unused" }

/-- A concrete run environment in which the market is open, the account
fetch succeeds, and the research stage raises a rate-limit error. -/
def envResearchFail : PipelineEnv :=
  { check_market_open := Except.ok true
    get_account_info := Except.ok acct0
    research_companies := Except.error (ResearchError.rateLimit "insufficient quota")
    analyze_fundamentals := fun _ => Except.ok { fundamentals := [] }
    make_investment_decision := fun _ _ _ _ =>
      Except.ok { decisions := [], portfolio_risk_analysis := "", available_capital := 0 }
    submit_order := fun _ => Except.error "unused" }

/-- A concrete decision-stage response holding two BUY decisions. -/
def grokTwo : GrokResponse :=
  { decisions := [buyDecision "AAA" 1, buyDecision "BBB" 2]
    portfolio_risk_analysis := "balanced"
    available_capital := 100 }

/-- A concrete run environment in which every stage succeeds, the decision
stage returns the two BUY decisions of grokTwo, and order submission
succeeds for ticker AAA but is rejected for any other ticker. -/
def envTwo : PipelineEnv :=
  { check_market_open := Except.ok true
    get_account_info := Except.ok acct0
    research_companies := Except.ok { picks := [] }
    analyze_fundamentals := fun _ => Except.ok { fundamentals := [] }
    make_investment_decision := fun _ _ _ _ => Except.ok grokTwo
    submit_order := fun d =>
      if d.ticker == "AAA" then Except.ok { filled_avg_price := some 10, id := "order-1" }
      else Except.error "rejected" }

/-- A concrete run environment in which every stage succeeds and the
decision stage returns zero decisions. -/
def envEmptyDecisions : PipelineEnv :=
  { check_market_open := Except.ok true
    get_account_info := Except.ok acct0
    research_companies := Except.ok { picks := [] }
    analyze_fundamentals := fun _ => Except.ok { fundamentals := [] }
    make_investment_decision := fun _ _ _ _ =>
      Except.ok { decisions := [], portfolio_risk_analysis := "all hold", available_capital := 0 }
    submit_order := fun _ => Except.error "unused" }

/-- Claim C1, counterexample: with the market closed (envClosed) and the
scheduler in its initial state, processing the run outcome is not a no-op as
the claim states — the scheduler state changes and a retry is armed. -/
theorem C1_counterexample :
    (run_task initState (TaskOutcome.ok (run_trading_pipeline envClosed).success)).1 ≠
      initState ∧
    (run_task initState (TaskOutcome.ok (run_trading_pipeline envClosed).success)).1.retry_scheduled
      = true := by
  constructor
  · decide
  · decide

/-- Claim C1, amended: when the market is closed, run_trading_pipeline
returns False without invoking any later step, and the scheduler processes
that False like any failure: the transition is schedule_retry, which arms a
retry when none is pending (market-closed is handled as a failure, not as a
mode-preserving deferral). -/
theorem C1_amended (env : PipelineEnv) (s : SchedulerState)
    (h : env.check_market_open = Except.ok false) :
    run_trading_pipeline env =
      { success := false, stagesRun := [Stage.marketCheck], tradeResults := [] } ∧
    (run_task s (TaskOutcome.ok (run_trading_pipeline env).success)).1 = schedule_retry s := by
  have hrun : run_trading_pipeline env =
      { success := false, stagesRun := [Stage.marketCheck], tradeResults := [] } := by
    simp [run_trading_pipeline, h]
  refine ⟨hrun, ?_⟩
  rw [hrun]
  rfl


/-- Claim C1, witness: the amended statement evaluated on the concrete
closed-market environment and the initial scheduler state. -/
theorem C1_amended_witness :
    run_trading_pipeline envClosed =
      { success := false, stagesRun := [Stage.marketCheck], tradeResults := [] } ∧
    (run_task initState (TaskOutcome.ok (run_trading_pipeline envClosed).success)).1 =
      schedule_retry initState :=
  C1_amended envClosed initState rfl

/-- Claim C2: the invariant that at most one retry timer is pending fails on
the code. After a failing run a retry job is pending; a successful run
clears only the retry_scheduled flag and leaves the job pending; a further
failing run then arms a second job, so two retry timers are pending at
once. -/
theorem C2_two_retries_pending :
    runSched [SchedStep.manual (TaskOutcome.ok false)] =
      { retry_scheduled := true, pendingRetryJobs := 1 } ∧
    runSched [SchedStep.manual (TaskOutcome.ok false), SchedStep.manual (TaskOutcome.ok true)] =
      { retry_scheduled := false, pendingRetryJobs := 1 } ∧
    runSched [SchedStep.manual (TaskOutcome.ok false), SchedStep.manual (TaskOutcome.ok true),
        SchedStep.manual (TaskOutcome.ok false)] =
      { retry_scheduled := true, pendingRetryJobs := 2 } := by
  refine ⟨by decide, by decide, by decide⟩

/-- Claim C3, counterexample: a list of one HOLD decision is handed to the
execution step and nothing fails during execution, yet the returned list
holds zero results, not one per action as the claim states. -/
theorem C3_counterexample :
    (execute_trades (fun _ => Except.error "rejected") [holdDecision]).results.length = 0 ∧
    [holdDecision].length = 1 := by
  constructor
  · decide
  · decide

/-- Claim C3, amended: in a run reaching the execution step with decision
list ds, the outcome carries exactly one TradeResult per decision of ds that
passes the skip check (action BUY with positive shares), in order, and the
run reports success exactly when the number of failing TradeResults is
zero. -/
theorem C3_amended (env : PipelineEnv) (account_info : AccountInfo) (gpt : GPTResponse)
    (claude : ClaudeResponse) (grok : GrokResponse)
    (hmkt : env.check_market_open = Except.ok true)
    (hacct : env.get_account_info = Except.ok account_info)
    (hres : env.research_companies = Except.ok gpt)
    (hana : env.analyze_fundamentals gpt.picks = Except.ok claude)
    (hdec : env.make_investment_decision gpt.picks claude.fundamentals account_info.cash
      account_info.positions = Except.ok grok) :
    (run_trading_pipeline env).tradeResults =
      (grok.decisions.filter executes).map (tradeOf env.submit_order) ∧
    (run_trading_pipeline env).tradeResults.length =
      (grok.decisions.filter executes).length ∧
    (run_trading_pipeline env).success =
      ((run_trading_pipeline env).tradeResults.countP (fun r => !r.success) == 0) := by
  have hrun : run_trading_pipeline env =
      { success :=
          if (execute_trades env.submit_order grok.decisions).results.isEmpty then true
          else (execute_trades env.submit_order grok.decisions).results.all fun r => r.success
        stagesRun := [Stage.marketCheck, Stage.account, Stage.research, Stage.analysis,
          Stage.decision, Stage.execution]
        tradeResults := (execute_trades env.submit_order grok.decisions).results } := by
    simp only [run_trading_pipeline, hmkt, hacct, hres, hana, hdec]
  refine ⟨?_, ?_, ?_⟩
  · rw [hrun, execute_trades_spec]
  · rw [hrun, execute_trades_spec]
    exact List.length_map _ _
  · rw [hrun]
    exact all_successful_eq_no_failures _

/-- Claim C3, witness: the amended statement evaluated on the concrete
environment with two BUY decisions of which the second fails to execute. -/
theorem C3_amended_witness :
    (run_trading_pipeline envTwo).tradeResults =
      (grokTwo.decisions.filter executes).map (tradeOf envTwo.submit_order) ∧
    (run_trading_pipeline envTwo).tradeResults.length =
      (grokTwo.decisions.filter executes).length ∧
    (run_trading_pipeline envTwo).success =
      ((run_trading_pipeline envTwo).tradeResults.countP (fun r => !r.success) == 0) :=
  C3_amended envTwo acct0 { picks := [] } { fundamentals := [] } grokTwo rfl rfl rfl rfl rfl

/-- Claim C4, counterexample: run_now on the initial state with a failing
outcome flips the retry-armed mode from clear to set, so the mode is not
preserved as the claim states. -/
theorem C4_counterexample :
    initState.retry_scheduled = false ∧
    (run_now initState (TaskOutcome.ok false)).1.retry_scheduled = true := by
  constructor
  · decide
  · decide

/-- Claim C4, amended: run_now delegates to run_task, so it applies the
ordinary retry transition rather than preserving the mode: afterwards the
retry-armed flag equals whether the run failed, a failing run arms one new
retry job when none was pending, a successful run leaves the pending jobs
untouched, and the task function runs exactly once. -/
theorem C4_amended (s : SchedulerState) (o : TaskOutcome) :
    (run_now s o).1.retry_scheduled = taskFailed o ∧
    (run_now s o).1.pendingRetryJobs =
      (if taskFailed o && !s.retry_scheduled then s.pendingRetryJobs + 1
       else s.pendingRetryJobs) ∧
    (run_now s o).2 = 1 := by
  cases o with
  | ok b =>
    cases b <;> cases hrs : s.retry_scheduled <;>
      simp [run_now, run_task, schedule_retry, taskFailed, hrs]
  | exn m =>
    cases hrs : s.retry_scheduled <;>
      simp [run_now, run_task, schedule_retry, taskFailed, hrs]

/-- Claim C5: with a retry armed (flag set, one retry job pending), the
firing retry runs the task function exactly once and, regardless of the
outcome, leaves the scheduler back in the awaiting state with no retry
pending — a failed retry never arms a second retry. -/
theorem C5_retry_fires_once_then_awaits (s : SchedulerState) (o : TaskOutcome)
    (_harmed : s.retry_scheduled = true) (hjobs : s.pendingRetryJobs = 1) :
    retry_once s o = ({ retry_scheduled := false, pendingRetryJobs := 0 }, 1) := by
  simp [retry_once, hjobs]

/-- Claim C5, witness: the retry transition evaluated from the armed state
with a failing retry outcome. -/
theorem C5_witness :
    retry_once { retry_scheduled := true, pendingRetryJobs := 1 } (TaskOutcome.ok false) =
      ({ retry_scheduled := false, pendingRetryJobs := 0 }, 1) :=
  C5_retry_fires_once_then_awaits _ _ rfl rfl

/-- Claim C6: a decision that is executed and whose submission raises an
error is recorded as a failed TradeResult carrying the error text, and the
decisions before and after it are processed exactly as they would be on
their own — one action's failure never aborts the rest and never escapes
the execution step. -/
theorem C6_action_failure_isolated
    (submit_order : InvestmentDecision → Except String AlpacaOrder)
    (ds1 ds2 : List InvestmentDecision) (d : InvestmentDecision) (e : String)
    (hbuy : d.action = "BUY") (hpos : 0 < d.shares)
    (herr : submit_order d = Except.error e) :
    (execute_trades submit_order (ds1 ++ d :: ds2)).results =
      (execute_trades submit_order ds1).results ++
        ({ ticker := d.ticker, shares := d.shares, action := "BUY", price := 0, total_value := 0,
           success := false, order_id := none, error_message := some e } : TradeResult) ::
        (execute_trades submit_order ds2).results := by
  have hex : executes d = true := by simp [executes, hbuy, hpos]
  simp [execute_trades_spec, List.filter_append, List.filter_cons, hex, tradeOf, herr]

/-- Claim C6, witness: a failing middle action between two other failing
actions, evaluated concretely. -/
theorem C6_witness :
    (execute_trades (fun _ => Except.error "boom")
        ([buyDecision "AAA" 1] ++ buyDecision "BBB" 2 :: [buyDecision "CCC" 3])).results =
      (execute_trades (fun _ => Except.error "boom") [buyDecision "AAA" 1]).results ++
        ({ ticker := "BBB", shares := 2, action := "BUY", price := 0, total_value := 0,
           success := false, order_id := none, error_message := some "boom" } : TradeResult) ::
        (execute_trades (fun _ => Except.error "boom") [buyDecision "CCC" 3]).results :=
  C6_action_failure_isolated (fun _ => Except.error "boom") [buyDecision "AAA" 1]
    [buyDecision "CCC" 3] (buyDecision "BBB" 2) "boom" rfl (by decide) rfl

/-- Claim C7: when the market is open and the account fetch succeeds but the
research stage fails — with a rate-limit error or any other error — the
pipeline returns the failure outcome immediately: the analysis, decision and
execution steps are never invoked and the outcome carries zero
TradeResults. -/
theorem C7_research_failure_aborts (env : PipelineEnv) (account_info : AccountInfo)
    (err : ResearchError)
    (hmkt : env.check_market_open = Except.ok true)
    (hacct : env.get_account_info = Except.ok account_info)
    (hres : env.research_companies = Except.error err) :
    run_trading_pipeline env =
      { success := false, stagesRun := [Stage.marketCheck, Stage.account, Stage.research],
        tradeResults := [] } ∧
    Stage.analysis ∉ (run_trading_pipeline env).stagesRun ∧
    Stage.decision ∉ (run_trading_pipeline env).stagesRun ∧
    Stage.execution ∉ (run_trading_pipeline env).stagesRun ∧
    (run_trading_pipeline env).tradeResults = [] := by
  have hrun : run_trading_pipeline env =
      { success := false, stagesRun := [Stage.marketCheck, Stage.account, Stage.research],
        tradeResults := [] } := by
    simp [run_trading_pipeline, hmkt, hacct, hres]
  refine ⟨hrun, ?_, ?_, ?_, ?_⟩ <;> rw [hrun] <;> decide

/-- Claim C7, witness: the research-failure statement evaluated on the
concrete environment whose research stage raises a rate-limit error. -/
theorem C7_witness :
    run_trading_pipeline envResearchFail =
      { success := false, stagesRun := [Stage.marketCheck, Stage.account, Stage.research],
        tradeResults := [] } ∧
    Stage.analysis ∉ (run_trading_pipeline envResearchFail).stagesRun ∧
    Stage.decision ∉ (run_trading_pipeline envResearchFail).stagesRun ∧
    Stage.execution ∉ (run_trading_pipeline envResearchFail).stagesRun ∧
    (run_trading_pipeline envResearchFail).tradeResults = [] :=
  C7_research_failure_aborts envResearchFail acct0
    (ResearchError.rateLimit "insufficient quota") rfl rfl rfl

/-- Claim C8: a run in which every stage succeeds and the decision stage
returns zero decisions yields a successful outcome with no TradeResults, and
the scheduler processing that success clears the retry flag and arms no
retry job. -/
theorem C8_empty_decisions_success (env : PipelineEnv) (account_info : AccountInfo)
    (gpt : GPTResponse) (claude : ClaudeResponse) (grok : GrokResponse) (s : SchedulerState)
    (hmkt : env.check_market_open = Except.ok true)
    (hacct : env.get_account_info = Except.ok account_info)
    (hres : env.research_companies = Except.ok gpt)
    (hana : env.analyze_fundamentals gpt.picks = Except.ok claude)
    (hdec : env.make_investment_decision gpt.picks claude.fundamentals account_info.cash
      account_info.positions = Except.ok grok)
    (hempty : grok.decisions = []) :
    run_trading_pipeline env =
      { success := true
        stagesRun := [Stage.marketCheck, Stage.account, Stage.research, Stage.analysis,
          Stage.decision, Stage.execution]
        tradeResults := [] } ∧
    (run_task s (TaskOutcome.ok (run_trading_pipeline env).success)).1 =
      { s with retry_scheduled := false } ∧
    (run_task s (TaskOutcome.ok (run_trading_pipeline env).success)).1.pendingRetryJobs =
      s.pendingRetryJobs := by
  have hrun : run_trading_pipeline env =
      { success := true
        stagesRun := [Stage.marketCheck, Stage.account, Stage.research, Stage.analysis,
          Stage.decision, Stage.execution]
        tradeResults := [] } := by
    simp [run_trading_pipeline, hmkt, hacct, hres, hana, hdec, hempty, execute_trades]
  refine ⟨hrun, ?_, ?_⟩ <;> rw [hrun] <;> rfl

/-- Claim C8, witness: the empty-decision statement evaluated on the
concrete all-success environment with zero decisions and the initial
scheduler state. -/
theorem C8_witness :
    run_trading_pipeline envEmptyDecisions =
      { success := true
        stagesRun := [Stage.marketCheck, Stage.account, Stage.research, Stage.analysis,
          Stage.decision, Stage.execution]
        tradeResults := [] } ∧
    (run_task initState (TaskOutcome.ok (run_trading_pipeline envEmptyDecisions).success)).1 =
      { initState with retry_scheduled := false } ∧
    (run_task initState
        (TaskOutcome.ok (run_trading_pipeline envEmptyDecisions).success)).1.pendingRetryJobs =
      initState.pendingRetryJobs :=
  C8_empty_decisions_success envEmptyDecisions acct0 { picks := [] } { fundamentals := [] }
    { decisions := [], portfolio_risk_analysis := "all hold", available_capital := 0 }
    initState rfl rfl rfl rfl rfl rfl

/-- Claim C9: execute_trades submits an order for exactly the decisions
whose action is BUY with positive shares, in order, and returns exactly one
TradeResult per submitted decision; decisions failing that check are skipped
with no submission and no TradeResult. -/
theorem C9_only_positive_buys_executed
    (submit_order : InvestmentDecision → Except String AlpacaOrder)
    (decisions : List InvestmentDecision) :
    (execute_trades submit_order decisions).submitted =
      decisions.filter (fun d => decide (d.action = "BUY" ∧ 0 < d.shares)) ∧
    (execute_trades submit_order decisions).results =
      (decisions.filter (fun d => decide (d.action = "BUY" ∧ 0 < d.shares))).map
        (tradeOf submit_order) := by
  rw [execute_trades_spec]
  exact ⟨rfl, rfl⟩

/-- Claim C10, counterexample: called on a Monday at exactly 08:30:00.000000
the function returns that very instant, which is not earlier than the
current time as the claim states. -/
theorem C10_counterexample :
    weekday { day := 7, hour := 8, minute := 30, second := 0, microsecond := 0 } = 0 ∧
    calculate_next_monday_830_cdt
        { day := 7, hour := 8, minute := 30, second := 0, microsecond := 0 } =
      { day := 7, hour := 8, minute := 30, second := 0, microsecond := 0 } ∧
    ¬ dtLt
        (calculate_next_monday_830_cdt
          { day := 7, hour := 8, minute := 30, second := 0, microsecond := 0 })
        { day := 7, hour := 8, minute := 30, second := 0, microsecond := 0 } := by
  refine ⟨by decide, by decide, by decide⟩

/-- Claim C10, amended: the returned value always falls on a Monday at
08:30:00.000000; called on a Monday in the eight-o-clock hour at or after
08:30 it is that same day's 08:30, hence at or before the current time, and
strictly earlier whenever the current time is strictly after
08:30:00.000000. -/
theorem C10_amended (now : PyDateTime) :
    (weekday (calculate_next_monday_830_cdt now) = 0 ∧
      (calculate_next_monday_830_cdt now).hour = 8 ∧
      (calculate_next_monday_830_cdt now).minute = 30 ∧
      (calculate_next_monday_830_cdt now).second = 0 ∧
      (calculate_next_monday_830_cdt now).microsecond = 0) ∧
    (weekday now = 0 → now.hour = 8 → 30 ≤ now.minute →
      (calculate_next_monday_830_cdt now).day = now.day ∧
      dtKey (calculate_next_monday_830_cdt now) ≤ dtKey now ∧
      (30 < now.minute ∨ 0 < now.second ∨ 0 < now.microsecond →
        dtLt (calculate_next_monday_830_cdt now) now)) := by
  constructor
  · refine ⟨?_, rfl, rfl, rfl, rfl⟩
    unfold calculate_next_monday_830_cdt weekday
    dsimp only
    split <;> omega
  · intro hw hh hm
    have hcalc : calculate_next_monday_830_cdt now =
        { day := now.day, hour := 8, minute := 30, second := 0, microsecond := 0 } := by
      unfold calculate_next_monday_830_cdt weekday
      unfold weekday at hw
      have hd : (7 - now.day % 7) % 7 = 0 := by omega
      have hcond : ¬((7 - now.day % 7) % 7 = 0 ∧ 9 ≤ now.hour) := by omega
      dsimp only
      rw [if_neg hcond, hd]
      simp
    refine ⟨by rw [hcalc], ?_, ?_⟩
    · rw [hcalc]
      unfold dtKey
      dsimp only
      omega
    · intro hstrict
      unfold dtLt
      rw [hcalc]
      unfold dtKey
      dsimp only
      omega

/-- Claim C10, witness: the amended statement evaluated at Monday 08:45:00,
where the returned 08:30 of the same day is strictly earlier. -/
theorem C10_witness :
    weekday (calculate_next_monday_830_cdt
      { day := 0, hour := 8, minute := 45, second := 0, microsecond := 0 }) = 0 ∧
    (calculate_next_monday_830_cdt
      { day := 0, hour := 8, minute := 45, second := 0, microsecond := 0 }).day = 0 ∧
    dtLt
      (calculate_next_monday_830_cdt
        { day := 0, hour := 8, minute := 45, second := 0, microsecond := 0 })
      { day := 0, hour := 8, minute := 45, second := 0, microsecond := 0 } := by
  have h := C10_amended { day := 0, hour := 8, minute := 45, second := 0, microsecond := 0 }
  exact ⟨h.1.1, (h.2 rfl rfl (by decide)).1,
    (h.2 rfl rfl (by decide)).2.2 (Or.inl (by decide))⟩

end Eduardo
